import Mathlib

/-!
Shallow embedding of the state manager of Prusa-Link
(src/prusa/link/printer_adapter/informers/state_manager.py).

The embedding models:
  - the printer `State` and transition `Source` enumerations used by the module;
  - the `StateChange` expectation descriptor (command id, to_states map,
    from_states map, default source);
  - the mutable data of the manager (base_state, printing_state,
    override_state, last_state, current_state) as an explicit record;
  - the expectation ledger (`expected_state_change`) as an `Option StateChange`
    threaded through each operation;
  - `get_state`, `is_expected`, `get_expected_source`,
    `state_may_have_changed` and the `state_influencer` wrapper as pure
    functions; signal emissions and ledger clearing inside
    `state_may_have_changed` are recorded as an ordered event trace, mirroring
    the statement order of the python code;
  - the eleven decorated state-changing methods, and `sd_printing_handler`.
-/

namespace PrusaLink

/-- Printer states used by the state manager (prusa.connect.printer.const.State). -/
inductive State where
  | READY
  | BUSY
  | PRINTING
  | PAUSED
  | FINISHED
  | ATTENTION
  | ERROR
deriving DecidableEq

/-- Transition sources used by the state manager (prusa.connect.printer.const.Source). -/
inductive Source where
  | USER
  | MARLIN
  | HW
  | CONNECT
  | SERIAL
  | WUI
deriving DecidableEq

/-- Lookup in a python dict modelled as an association list: returns
some value when the key is present (the value itself may be none),
none when the key is absent. -/
def dictGet (dict : List (State × Option Source)) (key : State) :
    Option (Option Source) :=
  match dict with
  | [] => none
  | (k, v) :: rest => if k = key then some v else dictGet rest key

/-- Expectation descriptor, from class StateChange: an optional command id,
a map from target state to expected source, a map from origin state to
expected source, and an optional default source. -/
structure StateChange where
  command_id : Option Nat := none
  to_states : List (State × Option Source) := []
  from_states : List (State × Option Source) := []
  default_source : Option Source := none
deriving DecidableEq

/-- The mutable fields of the state manager consulted by the embedded code:
the three layers (base_state, printing_state, override_state) and the
reported history (last_state, current_state). -/
structure Data where
  base_state : State
  printing_state : Option State
  override_state : Option State
  last_state : State
  current_state : State
deriving DecidableEq

/-- StateManager.get_state: override_state if set, else printing_state if
set, else base_state. -/
def get_state (d : Data) : State :=
  match d.override_state with
  | some s => s
  | none =>
    match d.printing_state with
    | some s => s
    | none => d.base_state

/-- StateManager.expect_change: assigns the descriptor to
expected_state_change unconditionally. -/
def expect_change (_l : Option StateChange) (change : StateChange) :
    Option StateChange :=
  some change

/-- StateManager.is_expected: with a pending descriptor, true when
current_state is a key of to_states, or last_state is a key of from_states,
or a default source is present; false with no pending descriptor. -/
def is_expected (l : Option StateChange) (d : Data) : Bool :=
  match l with
  | none => false
  | some state_change =>
    (dictGet state_change.to_states d.current_state).isSome
      || (dictGet state_change.from_states d.last_state).isSome
      || state_change.default_source.isSome

/-- StateManager.get_expected_source: source_from is the value stored under
last_state in from_states (none when absent or stored as none), source_to
likewise under current_state in to_states; on a conflict of two present
sources the from one wins, else the first present one, else the default. -/
def get_expected_source (l : Option StateChange) (d : Data) : Option Source :=
  match l with
  | none => none
  | some state_change =>
    let source_from : Option Source :=
      Option.join (dictGet state_change.from_states d.last_state)
    let source_to : Option Source :=
      Option.join (dictGet state_change.to_states d.current_state)
    let source : Option Source :=
      if source_from.isSome ∧ source_to.isSome ∧ source_to ≠ source_from then
        source_from
      else
        source_from.orElse fun _ => source_to
    source.orElse fun _ => state_change.default_source

/-- Observable steps performed inside state_may_have_changed, in statement
order: the assignment clearing the expectation ledger, and the three signal
emissions with their payloads. -/
inductive Event where
  | ledgerCleared
  | preSignal (command_id : Option Nat)
  | changedSignal (from_state : State) (to_state : State)
      (command_id : Option Nat) (source : Option Source)
  | postSignal
deriving DecidableEq

/-- StateManager.state_may_have_changed: when the recomputed reportable
state differs from current_state, shift last_state, update current_state,
compute command id and source from the pending descriptor when the change
is expected, clear the ledger, then send the three signals; otherwise do
nothing. The returned trace lists the ledger clearing and the signal sends
in the order the python statements execute. -/
def state_may_have_changed (l : Option StateChange) (d : Data) :
    Data × Option StateChange × List Event :=
  if get_state d ≠ d.current_state then
    let d2 : Data :=
      { d with last_state := d.current_state, current_state := get_state d }
    let command_id : Option Nat :=
      if is_expected l d2 then l.bind (fun sc => sc.command_id) else none
    let source : Option Source :=
      if is_expected l d2 then get_expected_source l d2 else none
    (d2, none,
      [Event.ledgerCleared, Event.preSignal command_id,
       Event.changedSignal d2.last_state d2.current_state command_id source,
       Event.postSignal])
  else
    (d, l, [])

/-- The state_influencer decorator: under the lock, push the declared
default descriptor only when the ledger is empty and a default exists, run
the body, run state_may_have_changed, and clear the ledger at the end only
when this wrapper pushed the default. -/
def state_influencer (state_change : Option StateChange)
    (func : Data → Data) (l : Option StateChange) (d : Data) :
    Data × Option StateChange × List Event :=
  let has_set_expected_change : Bool := l.isNone && state_change.isSome
  let l0 : Option StateChange :=
    if l.isNone && state_change.isSome then state_change else l
  let r := state_may_have_changed l0 (func d)
  (r.1, if has_set_expected_change then none else r.2.1, r.2.2)

/-- Body of StateManager.printing. -/
def printingBody (d : Data) : Data :=
  if d.printing_state = none then
    { d with printing_state := some State.PRINTING }
  else d

/-- Body of StateManager.not_printing. -/
def notPrintingBody (d : Data) : Data :=
  if d.printing_state ≠ none then { d with printing_state := none } else d

/-- Body of StateManager.finished. -/
def finishedBody (d : Data) : Data :=
  if d.printing_state = some State.PRINTING then
    { d with printing_state := some State.FINISHED }
  else d

/-- Body of StateManager.busy. -/
def busyBody (d : Data) : Data :=
  if d.base_state = State.READY then { d with base_state := State.BUSY } else d

/-- Body of StateManager.paused. -/
def pausedBody (d : Data) : Data :=
  if d.printing_state = some State.PRINTING then
    { d with printing_state := some State.PAUSED }
  else d

/-- Body of StateManager.resumed. -/
def resumedBody (d : Data) : Data :=
  if d.printing_state = some State.PAUSED then
    { d with printing_state := some State.PRINTING }
  else d

/-- Body of StateManager.ok: three successive conditional assignments. -/
def okBody (d : Data) : Data :=
  let d1 := if d.base_state = State.BUSY then
    { d with base_state := State.READY } else d
  let d2 := if d1.printing_state = some State.FINISHED then
    { d1 with printing_state := none } else d1
  if d2.override_state ≠ none then { d2 with override_state := none } else d2

/-- Body of StateManager.attention. -/
def attentionBody (d : Data) : Data :=
  { d with override_state := some State.ATTENTION }

/-- Body of StateManager.error. -/
def errorBody (d : Data) : Data :=
  { d with override_state := some State.ERROR }

/-- Body of StateManager.serial_error. -/
def serialErrorBody (d : Data) : Data :=
  { d with override_state := some State.ERROR }

/-- Body of StateManager.serial_error_resolved. -/
def serialErrorResolvedBody (d : Data) : Data :=
  if d.override_state = some State.ERROR then
    { d with override_state := none }
  else d

/-- Default descriptor declared on the printing decorator. -/
def printingChange : StateChange :=
  { to_states := [(State.PRINTING, some Source.USER)] }

/-- Default descriptor declared on the not_printing decorator. -/
def notPrintingChange : StateChange :=
  { from_states := [(State.PRINTING, some Source.MARLIN),
                    (State.PAUSED, some Source.MARLIN),
                    (State.FINISHED, some Source.MARLIN)] }

/-- Default descriptor declared on the finished decorator. -/
def finishedChange : StateChange :=
  { to_states := [(State.FINISHED, some Source.MARLIN)] }

/-- Default descriptor declared on the busy decorator. -/
def busyChange : StateChange :=
  { to_states := [(State.BUSY, some Source.MARLIN)] }

/-- Default descriptor declared on the paused decorator. -/
def pausedChange : StateChange :=
  { to_states := [(State.PAUSED, some Source.USER)] }

/-- Default descriptor declared on the resumed decorator. -/
def resumedChange : StateChange :=
  { to_states := [(State.PRINTING, some Source.USER)] }

/-- Default descriptor declared on the ok decorator. -/
def okChange : StateChange :=
  { to_states := [(State.READY, some Source.MARLIN)],
    from_states := [(State.ATTENTION, some Source.USER),
                    (State.ERROR, some Source.USER),
                    (State.BUSY, some Source.HW)] }

/-- Default descriptor declared on the attention decorator. -/
def attentionChange : StateChange :=
  { to_states := [(State.ATTENTION, some Source.USER)] }

/-- Default descriptor declared on the error decorator. -/
def errorChange : StateChange :=
  { to_states := [(State.ERROR, some Source.WUI)] }

/-- Default descriptor declared on the serial_error decorator. -/
def serialErrorChange : StateChange :=
  { to_states := [(State.ERROR, some Source.SERIAL)] }

/-- Default descriptor declared on the serial_error_resolved decorator. -/
def serialErrorResolvedChange : StateChange :=
  { to_states := [(State.READY, some Source.SERIAL)] }

/-- The eleven decorated state-changing methods of StateManager. -/
inductive Op where
  | printing
  | not_printing
  | finished
  | busy
  | paused
  | resumed
  | ok
  | attention
  | error
  | serial_error
  | serial_error_resolved
deriving DecidableEq

/-- The undecorated body of each method. -/
def Op.body : Op → Data → Data
  | .printing => printingBody
  | .not_printing => notPrintingBody
  | .finished => finishedBody
  | .busy => busyBody
  | .paused => pausedBody
  | .resumed => resumedBody
  | .ok => okBody
  | .attention => attentionBody
  | .error => errorBody
  | .serial_error => serialErrorBody
  | .serial_error_resolved => serialErrorResolvedBody

/-- The default descriptor each decorator declares. -/
def Op.defaultChange : Op → StateChange
  | .printing => printingChange
  | .not_printing => notPrintingChange
  | .finished => finishedChange
  | .busy => busyChange
  | .paused => pausedChange
  | .resumed => resumedChange
  | .ok => okChange
  | .attention => attentionChange
  | .error => errorChange
  | .serial_error => serialErrorChange
  | .serial_error_resolved => serialErrorResolvedChange

/-- A full call of a decorated method: the wrapper applied to the body with
the declared default descriptor. -/
def Op.run (o : Op) (l : Option StateChange) (d : Data) :
    Data × Option StateChange × List Event :=
  state_influencer (some o.defaultChange) o.body l d

/-- Which of the two methods sd_printing_handler dispatches to. -/
inductive SdCall where
  | notPrintingCall
  | printingCall
deriving DecidableEq

/-- Branch choice of StateManager.sd_printing_handler: printing is taken to
hold when the first capture group is absent or the file printer reports
printing; the not_printing branch is taken only when not printing and the
printing layer is not PAUSED. -/
def sd_printing_action (group0Present filePrinterPrinting : Bool)
    (d : Data) : SdCall :=
  let printing : Bool := !group0Present || filePrinterPrinting
  let is_paused : Bool := decide (d.printing_state = some State.PAUSED)
  if !printing && !is_paused then SdCall.notPrintingCall
  else SdCall.printingCall

/-- StateManager.sd_printing_handler: dispatches to not_printing or
printing according to sd_printing_action. -/
def sd_printing_handler (group0Present filePrinterPrinting : Bool)
    (l : Option StateChange) (d : Data) :
    Data × Option StateChange × List Event :=
  match sd_printing_action group0Present filePrinterPrinting d with
  | SdCall.notPrintingCall => Op.not_printing.run l d
  | SdCall.printingCall => Op.printing.run l d

/-- The initial data set up by the constructor: base READY, no printing
layer, no override, history initialised to the reduction. -/
def initialData : Data :=
  { base_state := State.READY, printing_state := none,
    override_state := none, last_state := State.READY,
    current_state := State.READY }

/-- Spec-shaped reduction of the three layers, from the words of the spec:
override if set, else activity if set, else base. -/
def specReportable (override_layer activity_layer : Option State)
    (base_layer : State) : State :=
  ((override_layer.orElse fun _ => activity_layer).getD base_layer)

/-- Spec-shaped source resolution, from the words of the claim: when both a
from-source and a to-source are present the from one is the result (stated
for a disagreement, and when they agree both branches coincide with the
from one); when exactly one is present that one is the result; when neither
is present the default is the result, absent default included. -/
def claimResolveSource (source_from source_to default_src : Option Source) :
    Option Source :=
  match source_from, source_to with
  | some f, some _ => some f
  | some f, none => some f
  | none, some t => some t
  | none, none => default_src

/-- Descriptor used by the counterexamples: a caller-pushed expectation. -/
def callerChange : StateChange :=
  { command_id := some 42, to_states := [(State.FINISHED, some Source.CONNECT)] }

/-- A steady state in which busy() mutates nothing: base already BUSY,
history in sync with the reduction. -/
def busySteadyData : Data :=
  { base_state := State.BUSY, printing_state := none, override_state := none,
    last_state := State.BUSY, current_state := State.BUSY }

/-- Descriptor for C10: carries a command id, maps the target state BUSY to
an absent source, and has no default source. -/
def c10Change : StateChange :=
  { command_id := some 7, to_states := [(State.BUSY, none)] }

/-- Data for C10: the layers reduce to BUSY while current_state is READY,
so a change from READY to BUSY is detected. -/
def c10Data : Data :=
  { base_state := State.BUSY, printing_state := none, override_state := none,
    last_state := State.READY, current_state := State.READY }

/-- Concrete paused state for the C6 witness. -/
def pausedData : Data :=
  { base_state := State.READY, printing_state := some State.PAUSED,
    override_state := none, last_state := State.PAUSED,
    current_state := State.PAUSED }

/-- Reading the reportable state ignores the history fields. -/
theorem get_state_hist (d : Data) (a b : State) :
    get_state { d with last_state := a, current_state := b } = get_state d :=
  rfl

/-- C1 counterexample: with a caller-pushed descriptor pending, an operation
that causes no reportable change returns with the ledger still occupied, so
the ledger is not empty after every mutating operation. -/
theorem C1_counterexample :
    (Op.busy.run (some callerChange) busySteadyData).2.1 ≠ none := by
  decide

/-- C1 amended: after a mutating operation returns, the ledger is empty
exactly when the ledger was empty at entry (the wrapper pushed and cleared
the default) or a reportable change occurred (the cycle cleared it); a
caller-pushed descriptor survives an operation that causes no change. -/
theorem C1_amended (o : Op) (l : Option StateChange) (d : Data) :
    (o.run l d).2.1 = none ↔ (l = none ∨ (o.run l d).2.2 ≠ []) := by
  cases l with
  | none => simp [Op.run, state_influencer]
  | some c =>
    have he : Op.run o (some c) d = state_may_have_changed (some c) (o.body d) := rfl
    rw [he]
    unfold state_may_have_changed
    split <;> simp

/-- C2 counterexample: expect_change called while a descriptor is pending
replaces the pending descriptor with the new one instead of ignoring it. -/
theorem C2_counterexample :
    expect_change (some busyChange) okChange = some okChange
    ∧ some okChange ≠ some busyChange := by
  decide

/-- C2 amended: only the wrapper's default push is skipped while a
descriptor is pending — a run entered with a pending descriptor behaves
exactly as the cycle under that descriptor, the default never intervening —
whereas an explicit expect_change always installs the new descriptor. -/
theorem C2_amended :
    (∀ (c : StateChange) (o : Op) (d : Data),
        Op.run o (some c) d = state_may_have_changed (some c) (Op.body o d))
    ∧ ∀ (l : Option StateChange) (c : StateChange), expect_change l c = some c := by
  constructor
  · intro c o d
    rfl
  · intro l c
    rfl

/-- Helper: the if-and-orElse chain of the code equals the claim-shaped
source resolution, for all three inputs. -/
theorem resolve_eq (sf st ds : Option Source) :
    ((if sf.isSome ∧ st.isSome ∧ st ≠ sf then sf
      else sf.orElse fun _ => st).orElse fun _ => ds) =
      claimResolveSource sf st ds := by
  cases sf <;> cases st <;> simp [claimResolveSource, Option.orElse]

/-- C3: the source computed by get_expected_source for a pending descriptor
equals the claim-shaped resolution applied to the from-entry of last_state,
the to-entry of current_state and the default source. -/
theorem C3_attribution (sc : StateChange) (d : Data) :
    get_expected_source (some sc) d =
      claimResolveSource
        (Option.join (dictGet sc.from_states d.last_state))
        (Option.join (dictGet sc.to_states d.current_state))
        sc.default_source :=
  resolve_eq _ _ _

/-- C4: the reportable state equals the spec-shaped reduction of the three
layers: override if set, else the printing layer if set, else base. -/
theorem C4_reduction (d : Data) :
    get_state d =
      specReportable d.override_state d.printing_state d.base_state := by
  obtain ⟨b, p, ov, ls, cs⟩ := d
  cases ov <;> cases p <;> rfl

/-- C5 counterexample: in a concrete changing run the ledger-clearing
assignment precedes the three signal emissions, so the trace is not the
claimed publish-then-clear order. -/
theorem C5_counterexample :
    (Op.busy.run none initialData).2.2 =
      [Event.ledgerCleared, Event.preSignal none,
       Event.changedSignal State.READY State.BUSY none (some Source.MARLIN),
       Event.postSignal]
    ∧ (Op.busy.run none initialData).2.2 ≠
      [Event.preSignal none,
       Event.changedSignal State.READY State.BUSY none (some Source.MARLIN),
       Event.postSignal, Event.ledgerCleared] := by
  decide

/-- C7: from the initial state, busy() makes the reportable state BUSY and
publishes a change from READY to BUSY with source MARLIN and no command id;
the subsequent ok() makes the reportable state READY again and publishes
from BUSY to READY with source HW, the from-mapping beating the to-mapping. -/
theorem C7_busy_ok_scenario :
    get_state (Op.busy.run none initialData).1 = State.BUSY
    ∧ (Op.busy.run none initialData).2.2 =
        [Event.ledgerCleared, Event.preSignal none,
         Event.changedSignal State.READY State.BUSY none (some Source.MARLIN),
         Event.postSignal]
    ∧ get_state
        (Op.ok.run (Op.busy.run none initialData).2.1
          (Op.busy.run none initialData).1).1 = State.READY
    ∧ (Op.ok.run (Op.busy.run none initialData).2.1
        (Op.busy.run none initialData).1).2.2 =
        [Event.ledgerCleared, Event.preSignal none,
         Event.changedSignal State.BUSY State.READY none (some Source.HW),
         Event.postSignal] := by
  decide

/-- C10: a pending descriptor whose to_states entry for the reached state
stores no source, with no default source, still classifies the transition
as expected and carries its command id in the changed signal, while the
attributed source is empty. -/
theorem C10_expected_without_source :
    is_expected (some c10Change)
      (state_may_have_changed (some c10Change) c10Data).1 = true
    ∧ get_expected_source (some c10Change)
        (state_may_have_changed (some c10Change) c10Data).1 = none
    ∧ (state_may_have_changed (some c10Change) c10Data).2.2 =
        [Event.ledgerCleared, Event.preSignal (some 7),
         Event.changedSignal State.READY State.BUSY (some 7) none,
         Event.postSignal] := by
  decide

/-- The detect-and-notify cycle never touches the printing layer. -/
theorem smhc_printing_state (l : Option StateChange) (d : Data) :
    (state_may_have_changed l d).1.printing_state = d.printing_state := by
  unfold state_may_have_changed
  split <;> rfl

/-- The detect-and-notify cycle never changes the reduction of the layers. -/
theorem smhc_get_state (l : Option StateChange) (d : Data) :
    get_state (state_may_have_changed l d).1 = get_state d := by
  unfold state_may_have_changed
  split <;> rfl

/-- The data returned by a full run is the data returned by the cycle on the
body's output, under the ledger holding the pending descriptor or, failing
that, the declared default. -/
theorem run_fst_eq (o : Op) (l : Option StateChange) (d : Data) :
    (o.run l d).1 =
      (state_may_have_changed (some (l.getD o.defaultChange)) (o.body d)).1 := by
  cases l <;> rfl

/-- C6: while the printing layer holds PAUSED, the SD-printing telemetry
handler never dispatches to not_printing — for any telemetry content it
dispatches to printing, whose body is a no-op there — so the printing layer
stays PAUSED and the reportable state is unchanged. -/
theorem C6_sticky_pause (g fp : Bool) (l : Option StateChange) (d : Data)
    (hp : d.printing_state = some State.PAUSED) :
    sd_printing_action g fp d = SdCall.printingCall
    ∧ (sd_printing_handler g fp l d).1.printing_state = some State.PAUSED
    ∧ get_state (sd_printing_handler g fp l d).1 = get_state d := by
  have ha : sd_printing_action g fp d = SdCall.printingCall := by
    unfold sd_printing_action
    simp [hp]
  have hb : Op.printing.body d = d := by
    show printingBody d = d
    unfold printingBody
    simp [hp]
  have hh : sd_printing_handler g fp l d = Op.printing.run l d := by
    unfold sd_printing_handler
    rw [ha]
  refine ⟨ha, ?_, ?_⟩
  · rw [hh, run_fst_eq, hb, smhc_printing_state, hp]
  · rw [hh, run_fst_eq, hb, smhc_get_state]

/-- C6 witness: the sticky-pause theorem applied at a concrete paused state
and a telemetry line reporting not printing. -/
theorem C6_witness :
    pausedData.printing_state = some State.PAUSED
    ∧ (sd_printing_action true false pausedData = SdCall.printingCall
       ∧ (sd_printing_handler true false none pausedData).1.printing_state =
           some State.PAUSED
       ∧ get_state (sd_printing_handler true false none pausedData).1 =
           get_state pausedData) :=
  ⟨rfl, C6_sticky_pause true false none pausedData rfl⟩

/-- C8: a transition is classified as expected exactly when a descriptor is
pending and the reached state keys to_states, or the left state keys
from_states, or a default source is present; a changing cycle carries the
descriptor's command id exactly when expected; with no pending descriptor a
changing cycle carries an empty command id and an empty source. -/
theorem C8_expected_classification (l : Option StateChange) (d : Data) :
    (is_expected l d = true ↔
      ∃ sc, l = some sc ∧
        ((dictGet sc.to_states d.current_state).isSome = true
          ∨ (dictGet sc.from_states d.last_state).isSome = true
          ∨ sc.default_source.isSome = true))
    ∧ ((state_may_have_changed l d).2.2 = []
        ∨ ∃ cid src,
            (state_may_have_changed l d).2.2 =
              [Event.ledgerCleared, Event.preSignal cid,
               Event.changedSignal d.current_state (get_state d) cid src,
               Event.postSignal]
            ∧ cid = (if is_expected l (state_may_have_changed l d).1 = true
                     then l.bind (fun sc => sc.command_id) else none))
    ∧ ((state_may_have_changed none d).2.2 = []
        ∨ (state_may_have_changed none d).2.2 =
            [Event.ledgerCleared, Event.preSignal none,
             Event.changedSignal d.current_state (get_state d) none none,
             Event.postSignal]) := by
  refine ⟨?_, ?_, ?_⟩
  · cases l with
    | none => simp [is_expected]
    | some sc =>
      simp [is_expected]
      tauto
  · unfold state_may_have_changed
    split
    · exact Or.inr ⟨_, _, rfl, rfl⟩
    · exact Or.inl rfl
  · unfold state_may_have_changed
    split
    · exact Or.inr rfl
    · exact Or.inl rfl

/-- Field-level form of printingBody. -/
theorem printingBody_mk (bs : State) (p ov : Option State) (ls cs : State) :
    printingBody ⟨bs, p, ov, ls, cs⟩ =
      ⟨bs, if p = none then some State.PRINTING else p, ov, ls, cs⟩ := by
  by_cases h : p = none <;> simp [printingBody, h]

/-- Field-level form of notPrintingBody: the printing layer always ends
unset. -/
theorem notPrintingBody_mk (bs : State) (p ov : Option State) (ls cs : State) :
    notPrintingBody ⟨bs, p, ov, ls, cs⟩ = ⟨bs, none, ov, ls, cs⟩ := by
  by_cases h : p = none <;> simp [notPrintingBody, h]

/-- Field-level form of finishedBody. -/
theorem finishedBody_mk (bs : State) (p ov : Option State) (ls cs : State) :
    finishedBody ⟨bs, p, ov, ls, cs⟩ =
      ⟨bs, if p = some State.PRINTING then some State.FINISHED else p,
       ov, ls, cs⟩ := by
  by_cases h : p = some State.PRINTING <;> simp [finishedBody, h]

/-- Field-level form of busyBody. -/
theorem busyBody_mk (bs : State) (p ov : Option State) (ls cs : State) :
    busyBody ⟨bs, p, ov, ls, cs⟩ =
      ⟨if bs = State.READY then State.BUSY else bs, p, ov, ls, cs⟩ := by
  by_cases h : bs = State.READY <;> simp [busyBody, h]

/-- Field-level form of pausedBody. -/
theorem pausedBody_mk (bs : State) (p ov : Option State) (ls cs : State) :
    pausedBody ⟨bs, p, ov, ls, cs⟩ =
      ⟨bs, if p = some State.PRINTING then some State.PAUSED else p,
       ov, ls, cs⟩ := by
  by_cases h : p = some State.PRINTING <;> simp [pausedBody, h]

/-- Field-level form of resumedBody. -/
theorem resumedBody_mk (bs : State) (p ov : Option State) (ls cs : State) :
    resumedBody ⟨bs, p, ov, ls, cs⟩ =
      ⟨bs, if p = some State.PAUSED then some State.PRINTING else p,
       ov, ls, cs⟩ := by
  by_cases h : p = some State.PAUSED <;> simp [resumedBody, h]

/-- Field-level form of okBody: the override layer always ends unset. -/
theorem okBody_mk (bs : State) (p ov : Option State) (ls cs : State) :
    okBody ⟨bs, p, ov, ls, cs⟩ =
      ⟨if bs = State.BUSY then State.READY else bs,
       if p = some State.FINISHED then none else p, none, ls, cs⟩ := by
  unfold okBody
  by_cases h1 : bs = State.BUSY <;> simp only [h1, if_true, if_false] <;>
    by_cases h2 : p = some State.FINISHED <;>
      by_cases h3 : ov = (none : Option State) <;>
        simp [h1, h2, h3]

/-- Field-level form of serialErrorResolvedBody. -/
theorem serialErrorResolvedBody_mk (bs : State) (p ov : Option State)
    (ls cs : State) :
    serialErrorResolvedBody ⟨bs, p, ov, ls, cs⟩ =
      ⟨bs, p, if ov = some State.ERROR then none else ov, ls, cs⟩ := by
  by_cases h : ov = some State.ERROR <;> simp [serialErrorResolvedBody, h]

/-- Every method body reads and writes only the layer fields: it commutes
with updates of the history fields. -/
theorem body_hist (o : Op) (d : Data) (a b : State) :
    o.body { d with last_state := a, current_state := b } =
      { o.body d with last_state := a, current_state := b } := by
  obtain ⟨bs, p, ov, ls, cs⟩ := d
  cases o <;>
    simp [Op.body, printingBody_mk, notPrintingBody_mk, finishedBody_mk,
      busyBody_mk, pausedBody_mk, resumedBody_mk, okBody_mk,
      attentionBody, errorBody, serialErrorBody, serialErrorResolvedBody_mk]

/-- Every method body is idempotent. -/
theorem body_idem (o : Op) (d : Data) : o.body (o.body d) = o.body d := by
  obtain ⟨bs, p, ov, ls, cs⟩ := d
  cases o <;>
    simp [Op.body, printingBody_mk, notPrintingBody_mk, finishedBody_mk,
      busyBody_mk, pausedBody_mk, resumedBody_mk, okBody_mk,
      attentionBody, errorBody, serialErrorBody, serialErrorResolvedBody_mk] <;>
    split_ifs <;> simp_all

/-- Every method body leaves the history fields untouched. -/
theorem body_current (o : Op) (d : Data) :
    (o.body d).current_state = d.current_state
    ∧ (o.body d).last_state = d.last_state := by
  obtain ⟨bs, p, ov, ls, cs⟩ := d
  cases o <;>
    simp [Op.body, printingBody_mk, notPrintingBody_mk, finishedBody_mk,
      busyBody_mk, pausedBody_mk, resumedBody_mk, okBody_mk,
      attentionBody, errorBody, serialErrorBody, serialErrorResolvedBody_mk]

/-- The data returned by a run is the body's output with possibly updated
history fields. -/
theorem run_fst_hist (o : Op) (l : Option StateChange) (d : Data) :
    ∃ a b, (o.run l d).1 =
      { o.body d with last_state := a, current_state := b } := by
  rw [run_fst_eq]
  unfold state_may_have_changed
  split
  · exact ⟨_, _, rfl⟩
  · exact ⟨(o.body d).last_state, (o.body d).current_state, rfl⟩

/-- After a run the recomputed reportable state agrees with current_state. -/
theorem run_fst_sync (o : Op) (l : Option StateChange) (d : Data) :
    get_state (o.run l d).1 = ((o.run l d).1).current_state := by
  rw [run_fst_eq]
  unfold state_may_have_changed
  split
  · rfl
  · rename_i h
    exact not_ne_iff.mp h

/-- The data returned by a run is a fixed point of the operation's body. -/
theorem run_body_fix (o : Op) (l : Option StateChange) (d : Data) :
    o.body (o.run l d).1 = (o.run l d).1 := by
  obtain ⟨a, b, h⟩ := run_fst_hist o l d
  rw [h, body_hist o (o.body d) a b, body_idem]

/-- On a data fixed by the body and whose history is already in sync, a full
wrapped call returns everything unchanged and emits nothing. -/
theorem influencer_fix (sc : Option StateChange) (f : Data → Data)
    (l : Option StateChange) (d : Data) (hf : f d = d)
    (hs : get_state d = d.current_state) :
    state_influencer sc f l d = (d, l, []) := by
  unfold state_influencer state_may_have_changed
  rw [hf]
  cases l <;> cases sc <;> simp [hs]

/-- C9: every mutating operation is idempotent across a full bracket —
repeating an operation immediately returns the same data and the same
ledger and emits no events, so only the first call can notify. -/
theorem C9_idempotent (o : Op) (l : Option StateChange) (d : Data) :
    o.run (o.run l d).2.1 (o.run l d).1 =
      ((o.run l d).1, (o.run l d).2.1, []) :=
  influencer_fix (some o.defaultChange) o.body (o.run l d).2.1 (o.run l d).1
    (run_body_fix o l d) (run_fst_sync o l d)

/-- C5 amended: a full bracketed call recomputes the reportable state from
the body's output; when it equals current_state nothing is published and
last_state/current_state are untouched; when it differs, last_state shifts
to the old current_state, current_state takes the new value, attribution
runs against the pending descriptor (or the pushed default), the ledger is
cleared, and only then are pre-change, changed and post-change published in
that order with the stated payloads. -/
theorem C5_amended (o : Op) (l : Option StateChange) (d : Data) :
    o.run l d =
      if get_state (o.body d) = d.current_state then (o.body d, l, [])
      else
        (let l0 : Option StateChange := some (l.getD o.defaultChange)
         let d2 : Data := { o.body d with
                            last_state := d.current_state,
                            current_state := get_state (o.body d) }
         let cid : Option Nat :=
           if is_expected l0 d2 = true then (l.getD o.defaultChange).command_id
           else none
         let src : Option Source :=
           if is_expected l0 d2 = true then get_expected_source l0 d2
           else none
         (d2, none,
          [Event.ledgerCleared, Event.preSignal cid,
           Event.changedSignal d.current_state (get_state (o.body d)) cid src,
           Event.postSignal])) := by
  have hc : (o.body d).current_state = d.current_state := (body_current o d).1
  cases l <;>
    (unfold Op.run state_influencer state_may_have_changed
     rw [hc]
     by_cases hcond : get_state (o.body d) = d.current_state <;>
       simp [hcond, Option.getD])

end PrusaLink
